import Mathlib

/-!
Shallow embedding of the two source files of this repository:

* `src/python/pants/base/build_environment.py` — environment facts, the
  `Git` command-line facade, and the process-wide `get_git` singleton.
* `src/python/pants/goal/task_registrar.py` — the `TaskRegistrar`
  factory/adapter and its generated `FuncTask` adapter type.

Subprocess execution is modelled by an explicit environment mapping a full
command line to its (return code, decoded stdout, decoded stderr) triple.
`pathlib` pure paths are modelled lexically as an absolute-flag plus a list
of components ("." / ".." normalization is out of scope for every claim).
Python `str | None` parameters become `Option`; Python exceptions become
`Except`.
-/

namespace Pants

/-! ### Python string helpers

All of them work on the character list underlying the string, by
structural recursion, so that every concrete instance evaluates. -/

/-- Split a character list at every character satisfying `p`; the
separators are consumed and empty pieces are kept (`"a//b"` gives
`["a", "", "b"]`), as in Python `str.split(sep)`. -/
def splitPred (p : Char → Bool) : List Char → List (List Char)
  | [] => [[]]
  | a :: rest =>
    if p a then [] :: splitPred p rest
    else
      match splitPred p rest with
      | [] => [[a]]
      | h :: t => (a :: h) :: t

/-- Python `str.strip()` (the code calls it through `Git._cleanse`):
drop whitespace from both ends. -/
def pyStrip (s : String) : String :=
  String.mk (((s.data.dropWhile Char.isWhitespace).reverse.dropWhile
    Char.isWhitespace).reverse)

/-- Python `str.splitlines()` restricted to newline separators; on the
empty string Python returns the empty list. -/
def pySplitlines (s : String) : List String :=
  if s = "" then []
  else (splitPred (fun c => c == '\n') s.data).map String.mk

/-- Python `str.split()` with no argument: split on whitespace runs,
dropping empty tokens. -/
def pySplit (s : String) : List String :=
  ((splitPred Char.isWhitespace s.data).map String.mk).filter (fun t => t != "")

/-- A character-list occurrence check: does `needle` occur contiguously
inside the list? -/
def listHasSub (needle : List Char) : List Char → Bool
  | [] => needle.isEmpty
  | a :: rest => needle.isPrefixOf (a :: rest) || listHasSub needle rest

/-- Python `needle in hay` for strings. -/
def pyContains (hay needle : String) : Bool :=
  listHasSub needle.data hay.data

/-! ### A lexical model of pathlib pure paths -/

/-- A `pathlib.PurePath`: absolute flag plus components. -/
structure PyPath where
  absolute : Bool
  parts : List String
deriving DecidableEq, Repr

/-- `PurePath(s)` for a string with `/` separators. -/
def parsePath (s : String) : PyPath :=
  { absolute := match s.data with
      | c :: _ => c == '/'
      | [] => false
    parts := ((splitPred (fun c => c == '/') s.data).map String.mk).filter
      (fun c => c != "") }

/-- `str(p)`; a fully relative empty path prints as `"."` as in pathlib. -/
def PyPath.str (p : PyPath) : String :=
  if p.absolute then "/" ++ String.intercalate "/" p.parts
  else if p.parts = [] then "." else String.intercalate "/" p.parts

/-- `p / q`: an absolute right operand replaces the left one. -/
def PyPath.join (p q : PyPath) : PyPath :=
  if q.absolute then q else { absolute := p.absolute, parts := p.parts ++ q.parts }

/-- `Path(p).resolve()` against a current working directory: an absolute
path stands, a relative one is anchored at the working directory. -/
def PyPath.resolveIn (cwd p : PyPath) : PyPath :=
  if p.absolute then p else cwd.join p

/-- `p.relative_to(r)`: defined exactly when `r` is a lexical ancestor-or-self
of `p`; otherwise pathlib raises `ValueError` (modelled as `none`). -/
def PyPath.relative_to (p r : PyPath) : Option PyPath :=
  if (p.absolute == r.absolute) && r.parts.isPrefixOf p.parts then
    some { absolute := false, parts := p.parts.drop r.parts.length }
  else none

/-! ### `is_in_container` (build_environment.py, lines 47-55)

The filesystem facts the function consults: existence of the two marker
files, and the contents of `/proc/self/cgroup` when it exists. -/

structure ContainerFS where
  dockerenv_exists : Bool
  containerenv_exists : Bool
  cgroup : Option String
deriving DecidableEq, Repr

/-- `is_in_container()`. -/
def is_in_container (fs : ContainerFS) : Bool :=
  fs.dockerenv_exists || fs.containerenv_exists ||
    (match fs.cgroup with
     | some text => pyContains text "docker"
     | none => false)

/-! ### The `Git` facade (build_environment.py, lines 58-204) -/

/-- The two exception kinds the git component can raise: `GitException`
(the single VCS error kind) and the plain `ValueError` coming out of
`PurePath.relative_to`. -/
inductive GitError where
  | gitException (msg : String)
  | valueError (msg : String)
deriving DecidableEq, Repr

/-- Outcome of one subprocess: return code, decoded stdout, decoded stderr. -/
structure ProcResult where
  returncode : Int
  out : String
  err : String
deriving DecidableEq, Repr

/-- The subprocess environment: each full command line has a fixed outcome
(the process launches; `OSError` on launch is outside every claim). -/
def GitEnv : Type := List String → ProcResult

/-- The `Git` dataclass: `worktree`, `_gitdir`, `_gitcmd`. -/
structure Git where
  worktree : PyPath
  gitdir : PyPath
  gitcmd : String
deriving DecidableEq, Repr

/-- `Git.__init__`: `worktree or os.getcwd()` resolved (a `PurePath` is
always truthy in Python, so only `None` falls back to the working
directory), `gitdir` resolved when given else `worktree / ".git"`,
`binary` stored as-is (its Python default is `"git"`). No validation is
performed: construction is total. -/
def Git.init (cwd : PyPath) (worktree : Option PyPath) (gitdir : Option PyPath)
    (binary : String) : Git :=
  let wt := PyPath.resolveIn cwd (worktree.getD cwd)
  { worktree := wt
    gitdir := match gitdir with
      | some gd => PyPath.resolveIn cwd gd
      | none => wt.join (parsePath ".git")
    gitcmd := binary }

/-- `" ".join(cmd)`. -/
def cmd_str (cmd : List String) : String := String.intercalate " " cmd

/-- `Git._check_result`: on a nonzero return code raise `GitException`
with `failure_msg or "<cmd> failed with exit code <n>"`; a `None`
`failure_msg` is modelled as `""` (both are falsy). -/
def check_result (cmd : List String) (result : Int) (failure_msg : String) :
    Except GitError Unit :=
  if result ≠ 0 then
    Except.error (GitError.gitException
      (if failure_msg ≠ "" then failure_msg
       else cmd_str cmd ++ " failed with exit code " ++ toString result))
  else Except.ok ()

/-- `Git._create_git_cmdline`. -/
def Git.create_git_cmdline (g : Git) (args : List String) : List String :=
  [g.gitcmd, "--git-dir=" ++ g.gitdir.str, "--work-tree=" ++ g.worktree.str] ++ args

/-- `Git._check_output`: run the full command line, check the result with
the captured stderr as failure message, return the cleansed stdout. -/
def Git.check_output (env : GitEnv) (g : Git) (args : List String) :
    Except GitError String :=
  let cmd := g.create_git_cmdline args
  let r := env cmd
  match check_result cmd r.returncode r.err with
  | Except.error e => Except.error e
  | Except.ok _ => Except.ok (pyStrip r.out)

/-- `Git._check_call`: `subprocess.call` captures nothing, so the result
check receives no failure message (Python passes `None`, modelled `""`). -/
def Git.check_call (env : GitEnv) (g : Git) (args : List String) :
    Except GitError Unit :=
  let cmd := g.create_git_cmdline args
  check_result cmd (env cmd).returncode ""

/-- `Git.mount` without a subdir (an optional subdir only changes the
working directory the subprocess observes, which the environment already
fixes): run `<binary> rev-parse --show-toplevel` bare, check the result
with the captured stderr, and construct a handle from the cleansed stdout
through `Git.__init__` (which is reached with its own default binary). -/
def Git.mount (env : GitEnv) (cwd : PyPath) (binary : String) : Except GitError Git :=
  let cmd := [binary, "rev-parse", "--show-toplevel"]
  let r := env cmd
  match check_result cmd r.returncode r.err with
  | Except.error e => Except.error e
  | Except.ok _ => Except.ok (Git.init cwd (some (parsePath (pyStrip r.out))) none "git")

/-- `Git.current_rev_identifier`. -/
def Git.current_rev_identifier : String := "HEAD"

/-- `Git.commit_id`. -/
def Git.commit_id (env : GitEnv) (g : Git) : Except GitError String :=
  Git.check_output env g ["rev-parse", "HEAD"]

/-- `Git.branch_name`: cleansed `rev-parse --abbrev-ref HEAD`, with the
literal `"HEAD"` mapped to `none` (detached HEAD). -/
def Git.branch_name (env : GitEnv) (g : Git) : Except GitError (Option String) :=
  match Git.check_output env g ["rev-parse", "--abbrev-ref", "HEAD"] with
  | Except.error e => Except.error e
  | Except.ok branch => Except.ok (if branch = "HEAD" then none else some branch)

/-- `Git._fix_git_relative_path`:
`str((self.worktree / worktree_path).relative_to(relative_to))`; the
`relative_to` failure is pathlib's plain `ValueError`, not `GitException`. -/
def Git.fix_git_relative_path (g : Git) (worktree_path : String)
    (relative_to : PyPath) : Except GitError String :=
  match (g.worktree.join (parsePath worktree_path)).relative_to relative_to with
  | some p => Except.ok p.str
  | none => Except.error (GitError.valueError
      ((g.worktree.join (parsePath worktree_path)).str
        ++ " is not in the subpath of " ++ relative_to.str))

/-- The Python set comprehension `{h(f) for f in files}` over a fallible
`h`: the first failure aborts, otherwise all images are collected. -/
def mapExcept {α β ε : Type} (h : α → Except ε β) : List α → Except ε (List β)
  | [] => Except.ok []
  | a :: l =>
    match h a, mapExcept h l with
    | Except.error e, _ => Except.error e
    | Except.ok _, Except.error e => Except.error e
    | Except.ok b, Except.ok bs => Except.ok (b :: bs)

/-- The union-building half of `Git.changed_files` (source lines 148-167):
the uncommitted diff, split into lines; then, when a truthy (nonempty)
`from_commit` is given, the three-dot committed diff, split on whitespace;
then, when untracked files are requested, the `ls-files` output, split on
whitespace. The `rel_suffix` pair `["--", str(relative_to)]` the source
appends to each command is written inline. An empty `from_commit` string
is falsy in Python, so `if from_commit:` skips the committed-changes diff
for it. -/
def Git.changed_files_collect (env : GitEnv) (g : Git) (from_commit : Option String)
    (include_untracked : Bool) (rel : PyPath) : Except GitError (List String) :=
  match Git.check_output env g ["diff", "--name-only", "HEAD", "--", rel.str] with
  | Except.error e => Except.error e
  | Except.ok uncommitted_changes =>
    let files0 := pySplitlines uncommitted_changes
    let step1 : Except GitError (List String) :=
      match from_commit with
      | none => Except.ok files0
      | some fc =>
        if fc = "" then Except.ok files0
        else
          match Git.check_output env g
              ["diff", "--name-only", fc ++ "...HEAD", "--", rel.str] with
          | Except.error e => Except.error e
          | Except.ok committed_changes => Except.ok (files0 ++ pySplit committed_changes)
    match step1 with
    | Except.error e => Except.error e
    | Except.ok files1 =>
      if include_untracked then
        match Git.check_output env g
            ["ls-files", "--other", "--exclude-standard", "--full-name", "--", rel.str] with
        | Except.error e => Except.error e
        | Except.ok untracked => Except.ok (files1 ++ pySplit untracked)
      else Except.ok files1

/-- `Git.changed_files`: collect the reported names, then map
`_fix_git_relative_path` over them. Python builds a `set` of names and a
`set` of relativized results; sets of strings are modelled as deduplicated
lists. -/
def Git.changed_files (env : GitEnv) (g : Git) (from_commit : Option String)
    (include_untracked : Bool) (relative_to : Option PyPath) :
    Except GitError (List String) :=
  let rel := relative_to.getD g.worktree
  match Git.changed_files_collect env g from_commit include_untracked rel with
  | Except.error e => Except.error e
  | Except.ok files2 =>
    match mapExcept (fun f => g.fix_git_relative_path f rel) files2.dedup with
    | Except.error e => Except.error e
    | Except.ok fixed => Except.ok fixed.dedup

/-- `Git.changes_in`. -/
def Git.changes_in (env : GitEnv) (g : Git) (diffspec : String)
    (relative_to : Option PyPath) : Except GitError (List String) :=
  let rel := relative_to.getD g.worktree
  match Git.check_output env g
      ["diff-tree", "--no-commit-id", "--name-only", "-r", diffspec] with
  | Except.error e => Except.error e
  | Except.ok out =>
    match mapExcept (fun f => g.fix_git_relative_path (pyStrip f) rel)
        (pySplit out).dedup with
    | Except.error e => Except.error e
    | Except.ok fixed => Except.ok fixed.dedup

/-- `Git.commit`. -/
def Git.commit (env : GitEnv) (g : Git) (message : String) : Except GitError Unit :=
  Git.check_call env g ["commit", "--all", "--message", message]

/-- `Git.add`. -/
def Git.add (env : GitEnv) (g : Git) (paths : List PyPath) : Except GitError Unit :=
  Git.check_call env g ("add" :: paths.map PyPath.str)

/-! ### The process-wide `get_git` singleton (build_environment.py, 207-231) -/

/-- The module-level `_Git` slot: `_GitInitialized.NO`, `None`, or a handle. -/
inductive GitSlot where
  | uninit
  | absent
  | resolved (g : Git)
deriving DecidableEq, Repr

/-- One call to `get_git()`: given the current slot, produce the new slot,
the returned value, and whether discovery (`Git.mount`) was invoked. In the
uninitialized state the whole `try` block runs: `Git.mount()` and then, for
the debug-log f-string, `git.branch_name`; a `GitException` from either is
caught and the slot becomes absent. Other states return the cached outcome. -/
def get_git_step (env : GitEnv) (cwd : PyPath) :
    GitSlot → GitSlot × Option Git × Bool
  | GitSlot.uninit =>
    (match Git.mount env cwd "git" with
     | Except.error _ => (GitSlot.absent, none, true)
     | Except.ok g =>
       match Git.branch_name env g with
       | Except.error _ => (GitSlot.absent, none, true)
       | Except.ok _ => (GitSlot.resolved g, some g, true))
  | GitSlot.absent => (GitSlot.absent, none, false)
  | GitSlot.resolved g => (GitSlot.resolved g, some g, false)

/-- `n` successive calls to `get_git()` from a slot state: the final slot
and how many of the calls invoked discovery. -/
def get_git_calls (env : GitEnv) (cwd : PyPath) : Nat → GitSlot → GitSlot × Nat
  | 0, s => (s, 0)
  | n + 1, s =>
    let r := get_git_step env cwd s
    let rest := get_git_calls env cwd n r.1
    (rest.1, rest.2 + (if r.2.2 then 1 else 0))

/-! ### `TaskRegistrar` and `FuncTask` (task_registrar.py)

The `isinstance`/`issubclass` dispatch on `action` is abstracted as a sum
type: an action is either an existing task type or a plain callable, the
latter carrying its `inspect.getargspec` data. -/

/-- The four components of `inspect.getargspec(action)`, with `varargs`,
`keywords` and `defaults` reduced to their truthiness. -/
structure ArgSpec where
  args : List String
  varargs : Bool
  keywords : Bool
  defaults : Bool
deriving DecidableEq, Repr

/-- The `action` argument of `TaskRegistrar.__init__`. -/
inductive RegistrarAction (τ : Type) where
  | taskType (t : τ)
  | callable (s : ArgSpec)
deriving DecidableEq, Repr

/-- What `self._task` ends up holding. -/
inductive TaskKind (τ : Type) where
  | direct (t : τ)
  | funcTask (s : ArgSpec)
deriving DecidableEq, Repr

/-- The action-normalizing part of `TaskRegistrar.__init__` (lines 29-53):
a conforming task type passes through; a callable is validated against its
argspec (`GoalError`, the single invalid-action error kind, modelled as the
`String` error channel) and otherwise wrapped as a `FuncTask`. -/
def taskRegistrarInit (τ : Type) (action : RegistrarAction τ) :
    Except String (TaskKind τ) :=
  match action with
  | RegistrarAction.taskType t => Except.ok (TaskKind.direct t)
  | RegistrarAction.callable s =>
    if s.varargs || s.keywords || s.defaults then
      Except.error "Invalid action supplied, cannot accept varargs, keywords or defaults"
    else if s.args.length > 1 then
      Except.error "Invalid action supplied, must accept either no args or else a single Context object"
    else Except.ok (TaskKind.funcTask s)

/-- The invocation strategy `FuncTask.__init__` stores in `self.action`. -/
inductive BoundAction (κ : Type) where
  | direct
  | partialContext (ctx : κ)
deriving DecidableEq, Repr

/-- The call `execute` finally performs on the wrapped callable. -/
inductive CallShape (κ : Type) where
  | noArgs
  | oneArg (ctx : κ)
deriving DecidableEq, Repr

/-- `FuncTask.__init__(self, *args, **kwargs)` (lines 40-48): `ctorArgs`
are the positional arguments supplied to the adapter constructor and
forwarded to the `Task` base constructor; `context` is what the base class
then exposes as `self.context`. The dispatch reads the local name `args` —
the constructor varargs — which shadows the callable argspec `args`
computed in `TaskRegistrar.__init__`; an adapter constructed with more than
one positional argument hits `AssertionError` (the error channel here). -/
def funcTaskInit {π κ : Type} (ctorArgs : List π) (context : κ) :
    Except String (BoundAction κ) :=
  if ctorArgs.length = 0 then Except.ok BoundAction.direct
  else if ctorArgs.length = 1 then Except.ok (BoundAction.partialContext context)
  else Except.error "Unexpected fallthrough"

/-- `FuncTask.execute` (lines 50-51): invoke the stored strategy — the bare
callable, or the partial application of the callable to the context. -/
def funcTaskExecute {κ : Type} : BoundAction κ → CallShape κ
  | BoundAction.direct => CallShape.noArgs
  | BoundAction.partialContext c => CallShape.oneArg c

/-- Whether a Python call of the given shape on a callable with the given
argspec (no varargs, no defaults) is well-formed: the number of supplied
arguments must equal the number of declared positional parameters. -/
def callOk {κ : Type} (s : ArgSpec) : CallShape κ → Bool
  | CallShape.noArgs => s.args.length == 0
  | CallShape.oneArg _ => s.args.length == 1

/-! ### Concrete objects used by the witnesses -/

/-- A concrete handle: worktree `/repo`, gitdir `/repo/.git`, binary `git`. -/
def gW : Git := Git.init { absolute := true, parts := ["home"] }
  (some { absolute := true, parts := ["repo"] }) none "git"

/-- An environment where every command succeeds with the given stdout. -/
def envOk (out : String) : GitEnv := fun _ => { returncode := 0, out := out, err := "" }

/-- An environment where every command fails with stderr text captured. -/
def envErr : GitEnv := fun _ => { returncode := 3, out := "", err := "boom" }

/-- An environment where every command fails with empty stderr. -/
def envSilentFail : GitEnv := fun _ => { returncode := 5, out := "", err := "" }

/-! ### Shared helper lemmas -/

/-- `mapExcept` succeeds when every element maps to a success, and the
members of its result are exactly the successful images. -/
theorem mapExcept_ok_of_forall {α β ε : Type} (h : α → Except ε β) :
    ∀ (l : List α), (∀ a, a ∈ l → ∃ b, h a = Except.ok b) →
      ∃ bs, mapExcept h l = Except.ok bs ∧
        ∀ x, x ∈ bs ↔ ∃ a, a ∈ l ∧ h a = Except.ok x := by
  intro l
  induction l with
  | nil =>
    intro _
    exact ⟨[], rfl, by simp⟩
  | cons a l ih =>
    intro hall
    obtain ⟨b, hb⟩ := hall a (List.mem_cons_self a l)
    obtain ⟨bs, hbs, hmem⟩ := ih (fun x hx => hall x (List.mem_cons_of_mem a hx))
    refine ⟨b :: bs, ?_, ?_⟩
    · simp only [mapExcept, hb, hbs]
    · intro x
      simp only [List.mem_cons]
      constructor
      · rintro (rfl | hx)
        · exact ⟨a, Or.inl rfl, hb⟩
        · obtain ⟨c, hc, hhc⟩ := (hmem x).1 hx
          exact ⟨c, Or.inr hc, hhc⟩
      · rintro ⟨c, (rfl | hc), hhc⟩
        · rw [hb] at hhc
          injection hhc with hbx
          exact Or.inl hbx.symm
        · exact Or.inr ((hmem x).2 ⟨c, hc, hhc⟩)

/-- Deduplicated relativization of a list of reported names: success and a
membership description, phrased against any predicate `P` describing the
members of the list. -/
theorem fix_set_ok (g : Git) (rel : PyPath) (l : List String) (P : String → Prop)
    (hsub : ∀ f, f ∈ l ↔ P f)
    (hfix : ∀ f, P f → ∃ y, Git.fix_git_relative_path g f rel = Except.ok y) :
    ∃ bs, mapExcept (fun f => Git.fix_git_relative_path g f rel) l.dedup = Except.ok bs ∧
      bs.dedup.Nodup ∧
      ∀ x, x ∈ bs.dedup ↔ ∃ f, P f ∧ Git.fix_git_relative_path g f rel = Except.ok x := by
  obtain ⟨bs, hbs, hmem⟩ := mapExcept_ok_of_forall
    (fun f => Git.fix_git_relative_path g f rel) l.dedup
    (fun f hf => hfix f ((hsub f).1 (List.mem_dedup.1 hf)))
  refine ⟨bs, hbs, List.nodup_dedup bs, ?_⟩
  intro x
  rw [List.mem_dedup, hmem x]
  constructor
  · rintro ⟨f, hf, hff⟩
    exact ⟨f, (hsub f).1 (List.mem_dedup.1 hf), hff⟩
  · rintro ⟨f, hf, hff⟩
    exact ⟨f, List.mem_dedup.2 ((hsub f).2 hf), hff⟩

/-- The union-collection step of `changed_files` succeeds when each of the
invoked subprocesses succeeds, and its members are exactly the union the
source builds: the uncommitted diff lines, the committed three-dot diff
tokens when a (truthy) `from_commit` is given, and the untracked tokens
when requested. -/
theorem changed_files_collect_ok (env : GitEnv) (g : Git) (fcOpt : Option String)
    (unt : Bool) (rel : PyPath) (out1 out2 out3 : String)
    (hfc : fcOpt ≠ some "")
    (h1 : Git.check_output env g ["diff", "--name-only", "HEAD", "--", rel.str] =
      Except.ok out1)
    (h2 : ∀ s, fcOpt = some s →
      Git.check_output env g ["diff", "--name-only", s ++ "...HEAD", "--", rel.str] =
        Except.ok out2)
    (h3 : unt = true →
      Git.check_output env g
          ["ls-files", "--other", "--exclude-standard", "--full-name", "--", rel.str] =
        Except.ok out3) :
    ∃ F, Git.changed_files_collect env g fcOpt unt rel = Except.ok F ∧
      ∀ f, f ∈ F ↔ (f ∈ pySplitlines out1 ∨
        (∃ s, fcOpt = some s ∧ f ∈ pySplit out2) ∨
        (unt = true ∧ f ∈ pySplit out3)) := by
  cases fcOpt with
  | none =>
    cases unt with
    | false =>
      refine ⟨pySplitlines out1, ?_, ?_⟩
      · simp only [Git.changed_files_collect, h1]
        simp
      · intro f
        simp
    | true =>
      refine ⟨pySplitlines out1 ++ pySplit out3, ?_, ?_⟩
      · simp only [Git.changed_files_collect, h1, h3 rfl]
        simp
      · intro f
        simp [List.mem_append]
  | some fc =>
    have hfcne : ¬(fc = "") := fun hh => hfc (by rw [hh])
    cases unt with
    | false =>
      refine ⟨pySplitlines out1 ++ pySplit out2, ?_, ?_⟩
      · simp only [Git.changed_files_collect, h1, if_neg hfcne, h2 fc rfl]
        simp
      · intro f
        simp [List.mem_append]
    | true =>
      refine ⟨(pySplitlines out1 ++ pySplit out2) ++ pySplit out3, ?_, ?_⟩
      · simp only [Git.changed_files_collect, h1, if_neg hfcne, h2 fc rfl, h3 rfl]
        simp
      · intro f
        simp [List.mem_append, or_assoc]

/-- `get_git` calls starting from a settled (non-uninitialized) slot never
invoke discovery and never move the slot. -/
theorem get_git_calls_settled (env : GitEnv) (cwd : PyPath) :
    ∀ (n : Nat) (s : GitSlot), s ≠ GitSlot.uninit →
      (get_git_calls env cwd n s).2 = 0 ∧ (get_git_calls env cwd n s).1 = s := by
  intro n
  induction n with
  | zero => intro s _; exact ⟨rfl, rfl⟩
  | succ n ih =>
    intro s hs
    cases s with
    | uninit => exact absurd rfl hs
    | absent =>
      obtain ⟨h2, h1⟩ := ih GitSlot.absent (fun hc => GitSlot.noConfusion hc)
      simp [get_git_calls, get_git_step, h1, h2]
    | resolved g =>
      obtain ⟨h2, h1⟩ := ih (GitSlot.resolved g) (fun hc => GitSlot.noConfusion hc)
      simp [get_git_calls, get_git_step, h1, h2]

/-- The first `get_git` call always leaves the uninitialized state. -/
theorem get_git_step_leaves_uninit (env : GitEnv) (cwd : PyPath) :
    (get_git_step env cwd GitSlot.uninit).1 ≠ GitSlot.uninit := by
  cases hm : Git.mount env cwd "git" with
  | error e => simp [get_git_step, hm]
  | ok g =>
    cases hb : Git.branch_name env g with
    | error e => simp [get_git_step, hm, hb]
    | ok b => simp [get_git_step, hm, hb]

/-! ### Claim theorems -/

/-- Claim C1 (code bug, evaluated at the failing input): the claim says the
generated adapter selects its invocation strategy from the wrapped
callable's arity, so a zero-argument callable is always executed with no
arguments. In the code, `FuncTask.__init__` reads the local `*args` of the
constructor — shadowing the callable argspec `args` validated by
`TaskRegistrar.__init__` — so the strategy depends on how the adapter is
constructed. Failing input: a zero-argument callable (argspec
`([], no varargs, no keywords, no defaults)`), accepted by the registrar,
whose adapter is constructed with one positional argument: the adapter
binds the shared context and `execute` performs a one-argument invocation,
which mismatches the callable's zero arity. -/
theorem funcTask_dispatch_ignores_callable_arity :
    taskRegistrarInit Unit (RegistrarAction.callable ⟨[], false, false, false⟩) =
      Except.ok (TaskKind.funcTask ⟨[], false, false, false⟩) ∧
    funcTaskInit ([()] : List Unit) (37 : Nat) =
      Except.ok (BoundAction.partialContext 37) ∧
    funcTaskExecute (BoundAction.partialContext (37 : Nat)) = CallShape.oneArg 37 ∧
    callOk ⟨[], false, false, false⟩ (CallShape.oneArg (37 : Nat)) = false :=
  ⟨rfl, rfl, rfl, rfl⟩

/-- Claim C3: constructing a task registrar from a callable raises an
invalid-action error exactly when the argspec declares varargs, keyword
args, defaults, or more than one fixed positional argument; a zero- or
one-argument callable with none of those is accepted and wrapped. -/
theorem task_registrar_callable_validation (s : ArgSpec) :
    ((∃ e, taskRegistrarInit Unit (RegistrarAction.callable s) = Except.error e) ↔
      (s.varargs = true ∨ s.keywords = true ∨ s.defaults = true ∨ 1 < s.args.length)) ∧
    ((s.varargs = false ∧ s.keywords = false ∧ s.defaults = false ∧ s.args.length ≤ 1) →
      taskRegistrarInit Unit (RegistrarAction.callable s) =
        Except.ok (TaskKind.funcTask s)) := by
  constructor
  · simp only [taskRegistrarInit]
    by_cases h1 : (s.varargs || s.keywords || s.defaults) = true
    · rw [if_pos h1]
      simp only [Bool.or_eq_true] at h1
      constructor
      · intro _
        rcases h1 with (hv | hk) | hd
        · exact Or.inl hv
        · exact Or.inr (Or.inl hk)
        · exact Or.inr (Or.inr (Or.inl hd))
      · intro _
        exact ⟨_, rfl⟩
    · rw [if_neg h1]
      simp only [Bool.or_eq_true, not_or, Bool.not_eq_true] at h1
      by_cases h2 : 1 < s.args.length
      · rw [if_pos h2]
        exact ⟨fun _ => Or.inr (Or.inr (Or.inr h2)), fun _ => ⟨_, rfl⟩⟩
      · rw [if_neg h2]
        constructor
        · rintro ⟨e, he⟩
          exact Except.noConfusion he
        · obtain ⟨⟨hv1, hk1⟩, hd1⟩ := h1
          rintro (hv | hk | hd | hl)
          · rw [hv1] at hv
            exact Bool.noConfusion hv
          · rw [hk1] at hk
            exact Bool.noConfusion hk
          · rw [hd1] at hd
            exact Bool.noConfusion hd
          · exact absurd hl h2
  · rintro ⟨hv, hk, hd, hl⟩
    simp only [taskRegistrarInit]
    rw [if_neg (by simp [hv, hk, hd]), if_neg (by omega)]

/-- Witness for C3: a one-argument context callable is accepted. -/
theorem task_registrar_callable_validation_witness :
    taskRegistrarInit Unit (RegistrarAction.callable ⟨["context"], false, false, false⟩) =
      Except.ok (TaskKind.funcTask ⟨["context"], false, false, false⟩) :=
  (task_registrar_callable_validation ⟨["context"], false, false, false⟩).2
    ⟨rfl, rfl, rfl, by decide⟩

/-- Claim C7: containment detection is true exactly when the `/.dockerenv`
marker exists, or the `/run/.containerenv` marker exists, or
`/proc/self/cgroup` exists with contents containing `"docker"`. -/
theorem is_in_container_iff (fs : ContainerFS) :
    is_in_container fs = true ↔
      (fs.dockerenv_exists = true ∨ fs.containerenv_exists = true ∨
       ∃ text, fs.cgroup = some text ∧ pyContains text "docker" = true) := by
  unfold is_in_container
  cases hc : fs.cgroup with
  | none => simp [hc]
  | some t => simp [hc, or_assoc]

/-- Claim C8: direct construction defaults — no worktree means the current
working directory (already absolute, so resolution fixes it), no gitdir
means `<worktree>/.git`, and the binary defaults to `"git"`; construction
performs no repository validation (it is a total function). -/
theorem git_init_defaults (cwd wt gd : PyPath)
    (hcwd : cwd.absolute = true) (hwt : wt.absolute = true) :
    Git.init cwd none none "git" =
      { worktree := cwd, gitdir := cwd.join (parsePath ".git"), gitcmd := "git" } ∧
    Git.init cwd (some wt) none "git" =
      { worktree := wt, gitdir := wt.join (parsePath ".git"), gitcmd := "git" } ∧
    (Git.init cwd (some wt) (some gd) "git").gitcmd = "git" ∧
    (Git.init cwd (some wt) (some gd) "git").worktree = wt := by
  refine ⟨?_, ?_, rfl, ?_⟩
  · simp [Git.init, PyPath.resolveIn, hcwd]
  · simp [Git.init, PyPath.resolveIn, hwt]
  · simp [Git.init, PyPath.resolveIn, hwt]

/-- Witness for C8 at a concrete working directory and worktree. -/
theorem git_init_defaults_witness :
    Git.init { absolute := true, parts := ["home"] } none none "git" =
      { worktree := { absolute := true, parts := ["home"] },
        gitdir := PyPath.join { absolute := true, parts := ["home"] } (parsePath ".git"),
        gitcmd := "git" } ∧
    Git.init { absolute := true, parts := ["home"] }
        (some { absolute := true, parts := ["repo"] }) none "git" =
      { worktree := { absolute := true, parts := ["repo"] },
        gitdir := PyPath.join { absolute := true, parts := ["repo"] } (parsePath ".git"),
        gitcmd := "git" } ∧
    (Git.init { absolute := true, parts := ["home"] }
        (some { absolute := true, parts := ["repo"] })
        (some { absolute := true, parts := ["meta"] }) "git").gitcmd = "git" ∧
    (Git.init { absolute := true, parts := ["home"] }
        (some { absolute := true, parts := ["repo"] })
        (some { absolute := true, parts := ["meta"] }) "git").worktree =
      { absolute := true, parts := ["repo"] } :=
  git_init_defaults { absolute := true, parts := ["home"] }
    { absolute := true, parts := ["repo"] }
    { absolute := true, parts := ["meta"] } rfl rfl

/-- Claim C9: `commit` and `add` return nothing on a zero exit code and on
a nonzero exit code `N` raise a VCS error whose message is the generated
`"<cmd> failed with exit code <N>"` form — the captured stderr is never
part of this path, whatever the subprocess wrote to it. -/
theorem commit_add_exit_code_only (env : GitEnv) (g : Git) (message : String)
    (paths : List PyPath) :
    ((env (g.create_git_cmdline ["commit", "--all", "--message", message])).returncode = 0 →
      Git.commit env g message = Except.ok ()) ∧
    ((env (g.create_git_cmdline ["commit", "--all", "--message", message])).returncode ≠ 0 →
      Git.commit env g message = Except.error (GitError.gitException
        (cmd_str (g.create_git_cmdline ["commit", "--all", "--message", message])
          ++ " failed with exit code "
          ++ toString (env (g.create_git_cmdline
                ["commit", "--all", "--message", message])).returncode))) ∧
    ((env (g.create_git_cmdline ("add" :: paths.map PyPath.str))).returncode = 0 →
      Git.add env g paths = Except.ok ()) ∧
    ((env (g.create_git_cmdline ("add" :: paths.map PyPath.str))).returncode ≠ 0 →
      Git.add env g paths = Except.error (GitError.gitException
        (cmd_str (g.create_git_cmdline ("add" :: paths.map PyPath.str))
          ++ " failed with exit code "
          ++ toString (env (g.create_git_cmdline
                ("add" :: paths.map PyPath.str))).returncode))) := by
  refine ⟨fun h => ?_, fun h => ?_, fun h => ?_, fun h => ?_⟩ <;>
    simp [Git.commit, Git.add, Git.check_call, check_result, h]

/-- Witness for C9: a failing `commit` yields the generated message even
though stderr text was captured, and a clean `commit` returns nothing. -/
theorem commit_add_exit_code_only_witness :
    Git.commit (envOk "") gW "msg" = Except.ok () ∧
    Git.commit envErr gW "msg" = Except.error (GitError.gitException
      (cmd_str (gW.create_git_cmdline ["commit", "--all", "--message", "msg"])
        ++ " failed with exit code "
        ++ toString (envErr (gW.create_git_cmdline
              ["commit", "--all", "--message", "msg"])).returncode)) :=
  ⟨(commit_add_exit_code_only (envOk "") gW "msg" []).1 rfl,
   (commit_add_exit_code_only envErr gW "msg" []).2.1 (by decide)⟩

/-- Claim C4: the process-wide singleton invokes repository discovery at
most once across any number of calls from the uninitialized state, and the
two settled states (resolved handle, absent) are terminal: a call there
re-invokes nothing and returns the cached outcome — including the absent
one. -/
theorem get_git_discovery_at_most_once (env : GitEnv) (cwd : PyPath) (n : Nat) :
    (get_git_calls env cwd n GitSlot.uninit).2 ≤ 1 ∧
    (∀ g, get_git_step env cwd (GitSlot.resolved g) = (GitSlot.resolved g, some g, false)) ∧
    get_git_step env cwd GitSlot.absent = (GitSlot.absent, none, false) := by
  refine ⟨?_, fun g => rfl, rfl⟩
  cases n with
  | zero => exact Nat.le_of_lt Nat.one_pos
  | succ n =>
    obtain ⟨h2, _⟩ := get_git_calls_settled env cwd n
      (get_git_step env cwd GitSlot.uninit).1 (get_git_step_leaves_uninit env cwd)
    show (get_git_calls env cwd n (get_git_step env cwd GitSlot.uninit).1).2 +
      (if (get_git_step env cwd GitSlot.uninit).2.2 then 1 else 0) ≤ 1
    rw [h2]
    split
    · exact Nat.le_refl 1
    · exact Nat.zero_le 1

/-- Claim C5: when `rev-parse --show-toplevel` exits nonzero, `mount`
raises a VCS error carrying the captured stderr text, or the generated
`"<cmd> failed with exit code <n>"` message when no stderr was captured;
on success it returns a handle whose worktree is the trimmed, decoded
stdout (git prints an absolute path, and resolution fixes absolute paths). -/
theorem mount_contract (env : GitEnv) (cwd : PyPath) (binary : String)
    (rc : Int) (out err : String)
    (henv : env [binary, "rev-parse", "--show-toplevel"] = ⟨rc, out, err⟩) :
    (rc ≠ 0 → err ≠ "" →
      Git.mount env cwd binary = Except.error (GitError.gitException err)) ∧
    (rc ≠ 0 → err = "" →
      Git.mount env cwd binary = Except.error (GitError.gitException
        (cmd_str [binary, "rev-parse", "--show-toplevel"]
          ++ " failed with exit code " ++ toString rc))) ∧
    (rc = 0 →
      Git.mount env cwd binary =
        Except.ok (Git.init cwd (some (parsePath (pyStrip out))) none "git")) ∧
    (rc = 0 → (parsePath (pyStrip out)).absolute = true →
      (Git.init cwd (some (parsePath (pyStrip out))) none "git").worktree =
        parsePath (pyStrip out)) := by
  refine ⟨fun h he => ?_, fun h he => ?_, fun h => ?_, fun _ habs => ?_⟩
  · simp [Git.mount, check_result, henv, h, he]
  · simp [Git.mount, check_result, henv, h, he]
  · simp [Git.mount, check_result, henv, h]
  · simp [Git.init, PyPath.resolveIn, habs]

/-- Witness for C5: both failure shapes and the success shape at concrete
environments. -/
theorem mount_contract_witness :
    Git.mount envErr { absolute := true, parts := ["home"] } "git" =
      Except.error (GitError.gitException "boom") ∧
    Git.mount envSilentFail { absolute := true, parts := ["home"] } "git" =
      Except.error (GitError.gitException
        (cmd_str ["git", "rev-parse", "--show-toplevel"]
          ++ " failed with exit code " ++ toString (5 : Int))) ∧
    Git.mount (envOk "/repo\n") { absolute := true, parts := ["home"] } "git" =
      Except.ok (Git.init { absolute := true, parts := ["home"] }
        (some (parsePath (pyStrip "/repo\n"))) none "git") ∧
    (Git.init { absolute := true, parts := ["home"] }
        (some (parsePath (pyStrip "/repo\n"))) none "git").worktree =
      parsePath (pyStrip "/repo\n") :=
  ⟨(mount_contract envErr { absolute := true, parts := ["home"] } "git"
      3 "" "boom" rfl).1 (by decide) (by decide),
   (mount_contract envSilentFail { absolute := true, parts := ["home"] } "git"
      5 "" "" rfl).2.1 (by decide) rfl,
   (mount_contract (envOk "/repo\n") { absolute := true, parts := ["home"] } "git"
      0 "/repo\n" "" rfl).2.2.1 rfl,
   (mount_contract (envOk "/repo\n") { absolute := true, parts := ["home"] } "git"
      0 "/repo\n" "" rfl).2.2.2 rfl (by decide)⟩

/-- Claim C6: when `rev-parse --abbrev-ref HEAD` succeeds, `branch_name`
returns its cleansed output, and it returns absent exactly when that
cleansed output is the literal `"HEAD"` (detached-HEAD state). -/
theorem branch_name_detached_head (env : GitEnv) (g : Git)
    (h : (env (g.create_git_cmdline ["rev-parse", "--abbrev-ref", "HEAD"])).returncode = 0) :
    Git.branch_name env g = Except.ok
      (if pyStrip (env (g.create_git_cmdline ["rev-parse", "--abbrev-ref", "HEAD"])).out = "HEAD"
       then none
       else some (pyStrip (env (g.create_git_cmdline ["rev-parse", "--abbrev-ref", "HEAD"])).out)) ∧
    (Git.branch_name env g = Except.ok none ↔
      pyStrip (env (g.create_git_cmdline ["rev-parse", "--abbrev-ref", "HEAD"])).out = "HEAD") := by
  have hb : Git.branch_name env g = Except.ok
      (if pyStrip (env (g.create_git_cmdline ["rev-parse", "--abbrev-ref", "HEAD"])).out = "HEAD"
       then none
       else some (pyStrip (env (g.create_git_cmdline ["rev-parse", "--abbrev-ref", "HEAD"])).out)) := by
    simp [Git.branch_name, Git.check_output, check_result, h]
  refine ⟨hb, ?_⟩
  rw [hb]
  split
  · simp [*]
  · simp [*]

/-- Witness for C6: a detached-HEAD output yields absent; a branch-name
output yields the cleansed branch name. -/
theorem branch_name_detached_head_witness :
    (Git.branch_name (envOk "HEAD\n") gW = Except.ok none ↔
      pyStrip (envOk "HEAD\n" (gW.create_git_cmdline
        ["rev-parse", "--abbrev-ref", "HEAD"])).out = "HEAD") ∧
    Git.branch_name (envOk "main\n") gW = Except.ok
      (if pyStrip (envOk "main\n" (gW.create_git_cmdline
            ["rev-parse", "--abbrev-ref", "HEAD"])).out = "HEAD"
       then none
       else some (pyStrip (envOk "main\n" (gW.create_git_cmdline
            ["rev-parse", "--abbrev-ref", "HEAD"])).out)) :=
  ⟨(branch_name_detached_head (envOk "HEAD\n") gW rfl).2,
   (branch_name_detached_head (envOk "main\n") gW rfl).1⟩

/-- Claim C2: on a call `changed_files(from_commit, include_untracked,
relative_to)` whose subprocesses succeed with outputs `out1` (uncommitted
diff), `out2` (three-dot committed diff, consulted only when a truthy
`from_commit` is given) and `out3` (untracked listing, consulted only when
requested), and whose reported paths all relativize, the result is the
deduplicated set whose members are exactly the re-relativizations (against
`relative_to`, defaulting to the worktree) of the union of the reported
files. -/
theorem changed_files_characterization (env : GitEnv) (g : Git)
    (fcOpt : Option String) (unt : Bool) (relOpt : Option PyPath) (rel : PyPath)
    (out1 out2 out3 : String)
    (hrel : relOpt.getD g.worktree = rel)
    (hfc : fcOpt ≠ some "")
    (h1 : Git.check_output env g ["diff", "--name-only", "HEAD", "--", rel.str] =
      Except.ok out1)
    (h2 : ∀ s, fcOpt = some s →
      Git.check_output env g ["diff", "--name-only", s ++ "...HEAD", "--", rel.str] =
        Except.ok out2)
    (h3 : unt = true →
      Git.check_output env g
          ["ls-files", "--other", "--exclude-standard", "--full-name", "--", rel.str] =
        Except.ok out3)
    (hfix : ∀ f, (f ∈ pySplitlines out1 ∨
        (∃ s, fcOpt = some s ∧ f ∈ pySplit out2) ∨
        (unt = true ∧ f ∈ pySplit out3)) →
      ∃ y, Git.fix_git_relative_path g f rel = Except.ok y) :
    ∃ res, Git.changed_files env g fcOpt unt relOpt = Except.ok res ∧
      res.Nodup ∧
      ∀ x, x ∈ res ↔ ∃ f, (f ∈ pySplitlines out1 ∨
        (∃ s, fcOpt = some s ∧ f ∈ pySplit out2) ∨
        (unt = true ∧ f ∈ pySplit out3)) ∧
        Git.fix_git_relative_path g f rel = Except.ok x := by
  obtain ⟨F, hF, hFm⟩ :=
    changed_files_collect_ok env g fcOpt unt rel out1 out2 out3 hfc h1 h2 h3
  obtain ⟨bs, hbs, hnd, hmem⟩ := fix_set_ok g rel F
    (fun f => f ∈ pySplitlines out1 ∨
      (∃ s, fcOpt = some s ∧ f ∈ pySplit out2) ∨
      (unt = true ∧ f ∈ pySplit out3)) hFm hfix
  refine ⟨bs.dedup, ?_, hnd, hmem⟩
  simp only [Git.changed_files, hrel, hF, hbs]

/-- Witness for C2: the default call shape, one modified file reported. -/
theorem changed_files_characterization_witness :
    ∃ res, Git.changed_files (envOk "a.txt") gW none false none = Except.ok res ∧
      res.Nodup ∧
      ∀ x, x ∈ res ↔ ∃ f, (f ∈ pySplitlines "a.txt" ∨
        (∃ s, (none : Option String) = some s ∧ f ∈ pySplit "") ∨
        (false = true ∧ f ∈ pySplit "")) ∧
        Git.fix_git_relative_path gW f gW.worktree = Except.ok x :=
  changed_files_characterization (envOk "a.txt") gW none false none gW.worktree
    "a.txt" "" "" rfl (by decide) rfl (fun s h => nomatch h) (fun h => nomatch h)
    (by
      intro f hf
      rcases hf with hf | ⟨s, hs, _⟩ | ⟨hh, _⟩
      · have hone : pySplitlines "a.txt" = ["a.txt"] := by decide
        rw [hone, List.mem_singleton] at hf
        subst hf
        exact ⟨"a.txt", rfl⟩
      · exact nomatch hs
      · exact nomatch hh)

/-- Claim C10: the re-relativization step of `changed_files` and
`changes_in` fails with the plain `ValueError` kind — never the VCS error
kind — exactly when the reported path, joined to the worktree, does not lie
under `relative_to`; so under the implicit precondition that every reported
path resolves inside `relative_to`, the relativization branch never fails
(shown for `changes_in` and for the default `changed_files` call shape). -/
theorem relativization_value_error_iff (g : Git) (rel : PyPath) :
    (∀ f, (∃ m, Git.fix_git_relative_path g f rel =
        Except.error (GitError.valueError m)) ↔
      (g.worktree.join (parsePath f)).relative_to rel = none) ∧
    (∀ f m, Git.fix_git_relative_path g f rel ≠
      Except.error (GitError.gitException m)) ∧
    (∀ env d out, Git.check_output env g
        ["diff-tree", "--no-commit-id", "--name-only", "-r", d] = Except.ok out →
      (∀ f, f ∈ pySplit out →
        ((g.worktree.join (parsePath (pyStrip f))).relative_to rel).isSome = true) →
      ∃ res, Git.changes_in env g d (some rel) = Except.ok res) ∧
    (∀ env out1, Git.check_output env g
        ["diff", "--name-only", "HEAD", "--", rel.str] = Except.ok out1 →
      (∀ f, f ∈ pySplitlines out1 →
        ((g.worktree.join (parsePath f)).relative_to rel).isSome = true) →
      ∃ res, Git.changed_files env g none false (some rel) = Except.ok res) := by
  refine ⟨?_, ?_, ?_, ?_⟩
  · intro f
    cases hr : (g.worktree.join (parsePath f)).relative_to rel with
    | some p => simp [Git.fix_git_relative_path, hr]
    | none => simp [Git.fix_git_relative_path, hr]
  · intro f m
    cases hr : (g.worktree.join (parsePath f)).relative_to rel with
    | some p => simp [Git.fix_git_relative_path, hr]
    | none => simp [Git.fix_git_relative_path, hr]
  · intro env d out hout hin
    have hall : ∀ f, f ∈ (pySplit out).dedup →
        ∃ y, Git.fix_git_relative_path g (pyStrip f) rel = Except.ok y := by
      intro f hf
      have hs := hin f (List.mem_dedup.1 hf)
      cases hr : (g.worktree.join (parsePath (pyStrip f))).relative_to rel with
      | some p => exact ⟨p.str, by simp [Git.fix_git_relative_path, hr]⟩
      | none =>
        rw [hr] at hs
        exact absurd hs (by simp)
    obtain ⟨bs, hbs, _⟩ := mapExcept_ok_of_forall
      (fun f => Git.fix_git_relative_path g (pyStrip f) rel) (pySplit out).dedup hall
    refine ⟨bs.dedup, ?_⟩
    simp only [Git.changes_in, Option.getD_some, hout, hbs]
  · intro env out1 hout1 hin
    obtain ⟨F, hF, hFm⟩ := changed_files_collect_ok env g none false rel out1 "" ""
      (by simp) hout1 (fun s h => nomatch h) (fun h => nomatch h)
    have hall : ∀ f, f ∈ F.dedup →
        ∃ y, Git.fix_git_relative_path g f rel = Except.ok y := by
      intro f hf
      rcases (hFm f).1 (List.mem_dedup.1 hf) with hf1 | ⟨s, hs, _⟩ | ⟨hh, _⟩
      · have hs := hin f hf1
        cases hr : (g.worktree.join (parsePath f)).relative_to rel with
        | some p => exact ⟨p.str, by simp [Git.fix_git_relative_path, hr]⟩
        | none =>
          rw [hr] at hs
          exact absurd hs (by simp)
      · exact nomatch hs
      · exact nomatch hh
    obtain ⟨bs, hbs, _⟩ := mapExcept_ok_of_forall
      (fun f => Git.fix_git_relative_path g f rel) F.dedup hall
    refine ⟨bs.dedup, ?_⟩
    simp only [Git.changed_files, Option.getD_some, hF, hbs]

/-- Witness for C10: a reported path inside `relative_to`, so `changes_in`
succeeds with no `ValueError`. -/
theorem relativization_value_error_iff_witness :
    ∃ res, Git.changes_in (envOk "a.txt") gW "HEAD" (some gW.worktree) =
      Except.ok res :=
  (relativization_value_error_iff gW gW.worktree).2.2.1 (envOk "a.txt") "HEAD" "a.txt"
    rfl
    (by
      intro f hf
      have hone : pySplit "a.txt" = ["a.txt"] := by decide
      rw [hone, List.mem_singleton] at hf
      subst hf
      decide)
